import Mathlib

/-!
Shallow embedding of the core of `SShiftuserinputstreamlit.py` (the
`StraddleShiftInput` Streamlit app): the time grid, field coercion,
validation, and the dual-write upsert engine.

Times of day are represented as seconds since midnight (`Nat`); Python
`datetime.time` comparison is lexicographic on (hour, minute, second),
which coincides with comparison of second counts.  Machine timestamps
(`datetime.utcnow()`) are abstract `Nat` instants passed as parameters.
The MongoDB collection selected by a client id is modelled as a partition
of an abstract store holding at most one document per partition (the
store's per-`StrategyID` uniqueness, which the code relies on); the
Google-Sheets worksheet is a list of rows of strings.
-/

namespace StraddleShift

/-- Seconds since midnight for a (hour, minute, second) triple, the
representation of a Python `datetime.time` value. -/
def timeSecs (h m s : Nat) : Nat := h * 3600 + m * 60 + s

/-- `MIN_T = time(9, 15, 0)`: lower bound of the allowed trading window. -/
def MIN_T : Nat := timeSecs 9 15 0

/-- `MAX_T = time(15, 30, 0)`: upper bound of the allowed trading window. -/
def MAX_T : Nat := timeSecs 15 30 0

/-- `DEFAULT_START = time(9, 15, 0)`. -/
def DEFAULT_START : Nat := timeSecs 9 15 0

/-- `DEFAULT_END = time(15, 15, 0)`. -/
def DEFAULT_END : Nat := timeSecs 15 15 0

/-- Fixed strategy identifier. Modelled from the spec: the source reads it
from Streamlit secrets (`st.secrets["app"]["strategy_id"]`), not present
under `src/`; the spec fixes it per deployment, and the page title shows
`CST0005`. No claim depends on its value. -/
def STRATEGY_ID : String := "CST0005"

/-- Loop body of `_build_time_options`: `while cur <= end_dt: append
cur; cur += timedelta(minutes=1)`.  The `fuel` argument only bounds the
number of iterations so the recursion is structural; with
`fuel > (max_t - cur) / 60` it never runs out before the loop's own exit
test fires. -/
def buildLoop (max_t : Nat) : Nat → Nat → List Nat
  | 0, _ => []
  | fuel + 1, cur => if cur ≤ max_t then cur :: buildLoop max_t fuel (cur + 60) else []

/-- `_build_time_options(min_t, max_t)`: the ordered list of allowed
times from `min_t` to `max_t` in 1-minute steps (the labels list is the
same data formatted, so it is not modelled separately). -/
def build_time_options (min_t max_t : Nat) : List Nat :=
  buildLoop max_t (max_t + 1) min_t

/-- `self.allowed_times`: built once from `MIN_T` and `MAX_T`. -/
def allowedTimes : List Nat := build_time_options MIN_T MAX_T

/-- Python `abs((d0 - d1).total_seconds())` for two times on the same
date: absolute difference of their second counts
(`seconds_between` in `_time_to_index`). -/
def secondsBetween (a b : Nat) : Nat := ((a : Int) - (b : Int)).natAbs

/-- Python's `min(xs, key=f)` main loop: keeps the current best and
replaces it only when a strictly smaller key appears, so the first
minimizer wins ties. -/
def minBy (f : Nat → Nat) : Nat → List Nat → Nat
  | best, [] => best
  | best, i :: rest => minBy f (if f i < f best then i else best) rest

/-- Python's `min(xs, key=f)`: raises on an empty sequence (modelled as
`none`), otherwise starts from the first element. -/
def pymin (f : Nat → Nat) : List Nat → Option Nat
  | [] => none
  | x :: xs => some (minBy f x xs)

/-- `_time_to_index(t)`: exact `list.index` lookup, falling back (on
`ValueError`) to the index minimizing `seconds_between(allowed_times[i], t)`
over `range(len(allowed_times))`. -/
def time_to_index (t : Nat) : Nat :=
  if t ∈ allowedTimes then List.indexOf t allowedTimes
  else (pymin (fun i => secondsBetween (allowedTimes.getD i 0) t)
      (List.range allowedTimes.length)).getD 0

/-- Python `s.split(":")` on the character list of `s`: cuts at every
colon, keeping empty components (`"".split(":") == [""]`). -/
def splitOnColon : List Char → List (List Char)
  | [] => [[]]
  | c :: rest =>
    if c = ':' then [] :: splitOnColon rest
    else
      match splitOnColon rest with
      | r :: rs => (c :: r) :: rs
      | [] => [[c]]

/-- Digit-string to number conversion underlying Python `int(s)`:
defined (as `some`) exactly on non-empty all-digit strings. -/
def digitsToNat : List Char → Option Nat
  | [] => none
  | cs =>
    if cs.all Char.isDigit then
      some (cs.foldl (fun acc c => acc * 10 + (c.toNat - 48)) 0)
    else none

/-- Python's whitespace stripping performed by `int(s)` before
conversion (`s.strip()`). -/
def pyStrip (cs : List Char) : List Char :=
  ((cs.dropWhile Char.isWhitespace).reverse.dropWhile Char.isWhitespace).reverse

/-- Python `int(s)` on the character list of a string: optional
surrounding whitespace, an optional sign, then digits; anything else
raises `ValueError` (`none`).  (Python additionally accepts `_`
separators between digits; such strings are modelled as failures, which
no claim exercises.) -/
def pyInt (s : List Char) : Option Int :=
  match pyStrip s with
  | [] => none
  | c :: cs =>
    if c = '-' then (digitsToNat cs).map (fun n => -(n : Int))
    else if c = '+' then (digitsToNat cs).map (fun n => (n : Int))
    else (digitsToNat (c :: cs)).map (fun n => (n : Int))

/-- Python `time(h, m, s)`: valid only for `0 ≤ h < 24`, `0 ≤ m < 60`,
`0 ≤ s < 60` (raises `ValueError` otherwise, modelled as `none`). -/
def mkTime (h m s : Int) : Option Nat :=
  if 0 ≤ h ∧ h < 24 ∧ 0 ≤ m ∧ m < 60 ∧ 0 ≤ s ∧ s < 60 then
    some (h * 3600 + m * 60 + s).toNat
  else none

/-- Body of `_parse_time_hms` after `s.split(":")`: requires at least two
components (`hh, mm, *rest` unpacking), takes seconds from `rest[0]` when
present (later components ignored) else `0`; any conversion or
`time(...)` failure is the `except` branch (`none`). -/
def parse_time_opt (parts : List (List Char)) : Option Nat :=
  match parts with
  | hh :: mm :: rest =>
    let ssv : Option Int := match rest with
      | [] => some 0
      | r :: _ => pyInt r
    match pyInt hh, pyInt mm, ssv with
    | some h, some m, some s => mkTime h m s
    | _, _, _ => none
  | _ => none

/-- `_parse_time_hms(s, default_t)`: parse, returning `default_t` on any
exception. -/
def parse_time_hms (s : String) (default_t : Nat) : Nat :=
  (parse_time_opt (splitOnColon s.data)).getD default_t

/-- Zero-padded two-digit rendering used by `strftime("%H:%M:%S")`. -/
def pad2 (n : Nat) : String := if n < 10 then "0" ++ Nat.repr n else Nat.repr n

/-- `_fmt_hms(t)`: `t.strftime("%H:%M:%S")`. -/
def fmt_hms (t : Nat) : String :=
  pad2 (t / 3600) ++ ":" ++ pad2 (t % 3600 / 60) ++ ":" ++ pad2 (t % 60)

/-- Values stored under a key of an existing Mongo document, as seen by
the prefill helpers: a string or some non-string value. -/
inductive FieldVal where
  | vstr : String → FieldVal
  | vother : FieldVal
deriving DecidableEq

/-- Python `dict.get(key)` on a document modelled as an association
list: `some` of the first binding's value, else `none`. -/
def dictGet (d : List (String × FieldVal)) (key : String) : Option FieldVal :=
  match d.find? (fun p => p.1 == key) with
  | some p => some p.2
  | none => none

/-- The condition `existing and isinstance(existing.get(key), str)` of
`_clamp_and_parse_time`, yielding the stored string when it holds: the
document must be present and truthy (non-empty dict) and the stored
value a string. -/
def getStoredStr (existing : Option (List (String × FieldVal))) (key : String) :
    Option String :=
  match existing with
  | none => none
  | some d =>
    if d.isEmpty then none
    else match dictGet d key with
      | some (FieldVal.vstr s) => some s
      | _ => none

/-- The clamping performed at the end of `_clamp_and_parse_time`: raise
to `MIN_T`, then cap at `MAX_T` (`TimeGrid.clamp` in the spec). -/
def clampT (t : Nat) : Nat :=
  if t < MIN_T then MIN_T else if MAX_T < t then MAX_T else t

/-- `_clamp_and_parse_time(existing, key, fallback)`: parse the stored
string when present (falling back to `fallback`), else `fallback`; then
clamp into `[MIN_T, MAX_T]`. -/
def clamp_and_parse_time (existing : Option (List (String × FieldVal)))
    (key : String) (fallback : Nat) : Nat :=
  let t := match getStoredStr existing key with
    | some s => parse_time_hms s fallback
    | none => fallback
  let t1 := if t < MIN_T then MIN_T else t
  if MAX_T < t1 then MAX_T else t1

/-- A numeric value submitted through the form, as seen by the
`isinstance(v, int)` checks of `_save_section`: a Python `int` or some
non-integer value. -/
inductive PyVal where
  | int : Int → PyVal
  | other : PyVal
deriving DecidableEq

/-- Python `int(v)` applied to an already-validated numeric field in the
document build of `_save_section`; on `PyVal.other` that call could
raise, but validation guarantees it is never reached there. -/
def PyVal.toInt : PyVal → Int
  | PyVal.int n => n
  | PyVal.other => 0

/-- The `ui_values` dictionary returned by `_controls_section`. -/
structure UiValues where
  Start : Bool
  Pause : Bool
  Stop : Bool
  CallEntry : Bool
  PutEntry : Bool
  ShiftHedge : Bool
  FirstEntry : Bool
  OTMPoints : PyVal
  HedgePoints : PyVal
  ShiftPoints : PyVal
  Symbol : String
  ExpiryNo : PyVal
  OrderLot : PyVal
deriving DecidableEq

/-- The document dictionary built by `_save_section` and written through
`$set` (every settable field, including `updated_at`). -/
structure DocFields where
  StrategyID : String
  Start : Bool
  Pause : Bool
  Stop : Bool
  ShiftHedge : Bool
  CallEntry : Bool
  PutEntry : Bool
  FirstEntry : Bool
  ShiftPoints : Int
  HedgePoints : Int
  OTMPoints : Int
  Symbol : String
  ExpiryNo : Int
  OrderLot : Int
  StartTime : String
  EndTime : String
  updated_at : Nat
deriving DecidableEq

/-- A document as stored: the settable fields plus the
`created_at` bookkeeping field, which `$setOnInsert` writes on insert
only (absent when never set). -/
structure StoredDoc where
  fields : DocFields
  created_at : Option Nat
deriving DecidableEq

/-- The record store: one partition (Mongo database, name = client id)
maps to at most one current document for the fixed `STRATEGY_ID`
collection key (a uniqueness the store enforces and the code relies
on). -/
abbrev Store := String → Option StoredDoc

/-- A store with no documents at all. -/
def emptyStore : Store := fun _ => none

/-- The updated store after a write into one partition. -/
def storeSet (store : Store) (k : String) (d : StoredDoc) : Store :=
  fun k2 => if k2 = k then some d else store k2

/-- `_get_collection` followed by `find_one` — `_load_existing(db_name)`:
an empty (falsy) db name yields `None` from `_get_collection`, which
`_load_existing` returns unchanged; otherwise the partition's current
document, `none` when absent. -/
def load_existing (store : Store) (db_name : String) : Option StoredDoc :=
  if db_name = "" then none else store db_name

/-- `_upsert_strategy(db_name, doc)`: `None` when `_get_collection`
fails (falsy db name); otherwise `find_one_and_update` with
`$set: doc`, `$setOnInsert: {created_at: now}`, `upsert=True` and
`ReturnDocument.AFTER`: replace the settable fields, preserve
`created_at` when a document existed, set it to `now` on insert, and
return the post-write document. -/
def upsert_strategy (store : Store) (db_name : String) (doc : DocFields)
    (now : Nat) : Option StoredDoc × Store :=
  if db_name = "" then (none, store)
  else
    match store db_name with
    | some old =>
      let d : StoredDoc := ⟨doc, old.created_at⟩
      (some d, storeSet store db_name d)
    | none =>
      let d : StoredDoc := ⟨doc, some now⟩
      (some d, storeSet store db_name d)

/-- The header row written by `_ensure_gsheet_header`. -/
def AUDIT_HEADER : List String :=
  ["SavedAt_IST", "SavedAt_UTC",
   "ClientID", "StrategyID",
   "Start", "Pause", "Stop",
   "CallEntry", "PutEntry", "ShiftHedge", "FirstEntry",
   "ShiftPoints", "HedgePoints", "OTMPoints",
   "Symbol", "ExpiryNo", "OrderLot",
   "StartTime", "EndTime"]

/-- The worksheet's `A1` cell: first cell of the first row, `none` when
the sheet is empty or the read raises (gspread returns `None` for an
empty cell). -/
def a1Value (ws : List (List String)) : Option String :=
  match ws with
  | [] => none
  | row :: _ => row.head?

/-- `_ensure_gsheet_header()`: append the header row exactly when the
`A1` cell is falsy (`None` or the empty string). -/
def ensure_gsheet_header (ws : List (List String)) : List (List String) :=
  match a1Value ws with
  | none => ws ++ [AUDIT_HEADER]
  | some s => if s = "" then ws ++ [AUDIT_HEADER] else ws

/-- Python `str(b)` on a bool. -/
def pyBoolStr (b : Bool) : String := if b then "True" else "False"

/-- The audit row built by `_append_to_gsheet`; `ist` and `utc` are the
two formatted capture timestamps. -/
def auditRow (client_id : String) (doc : DocFields) (ist utc : String) :
    List String :=
  [ist, utc, client_id, doc.StrategyID,
   pyBoolStr doc.Start, pyBoolStr doc.Pause, pyBoolStr doc.Stop,
   pyBoolStr doc.CallEntry, pyBoolStr doc.PutEntry, pyBoolStr doc.ShiftHedge,
   pyBoolStr doc.FirstEntry,
   toString doc.ShiftPoints, toString doc.HedgePoints, toString doc.OTMPoints,
   doc.Symbol, toString doc.ExpiryNo, toString doc.OrderLot,
   doc.StartTime, doc.EndTime]

/-- `_append_to_gsheet(client_id, doc)`: ensure the header, then append
one data row. -/
def append_to_gsheet (ws : List (List String)) (client_id : String)
    (doc : DocFields) (ist utc : String) : List (List String) :=
  ensure_gsheet_header ws ++ [auditRow client_id doc ist utc]

/-- Per-field test behind `not isinstance(v, int) or v < 0`. -/
def badNonNeg (v : PyVal) : Bool :=
  match v with
  | PyVal.int n => decide (n < 0)
  | PyVal.other => true

/-- Per-field test behind `not isinstance(v, int) or v < 1`. -/
def badLot (v : PyVal) : Bool :=
  match v with
  | PyVal.int n => decide (n < 1)
  | PyVal.other => true

/-- The `errors` list accumulated by `_save_section` before the save:
every rule is evaluated, in the order the code lists them, and each
violation appends one message naming its field. -/
def validateErrors (ui : UiValues) (StartTime EndTime : Nat) : List String :=
  (if badNonNeg ui.ShiftPoints then ["ShiftPoints must be a non-negative integer."] else []) ++
  (if badNonNeg ui.HedgePoints then ["HedgePoints must be a non-negative integer."] else []) ++
  (if badNonNeg ui.OTMPoints then ["OTMPoints must be a non-negative integer."] else []) ++
  (if badNonNeg ui.ExpiryNo then ["ExpiryNo must be a non-negative integer."] else []) ++
  (if badLot ui.OrderLot then ["OrderLot must be an integer ≥ 1."] else []) ++
  (if EndTime < StartTime then ["StartTime must be ≤ EndTime"] else [])

/-- The document dictionary literal of `_save_section` (`nowUtc` stands
for the `datetime.utcnow()` call that fills `updated_at`). -/
def buildDoc (ui : UiValues) (StartTime EndTime : Nat) (nowUtc : Nat) :
    DocFields :=
  ⟨STRATEGY_ID,
   ui.Start, ui.Pause, ui.Stop,
   ui.ShiftHedge, ui.CallEntry, ui.PutEntry, ui.FirstEntry,
   ui.ShiftPoints.toInt, ui.HedgePoints.toInt, ui.OTMPoints.toInt,
   ui.Symbol, ui.ExpiryNo.toInt, ui.OrderLot.toInt,
   fmt_hms StartTime, fmt_hms EndTime,
   nowUtc⟩

/-- Observable outcome of one `_save_section` run: the error messages
shown (`st.error`), whether success was reported (`st.success`), whether
the audit warning was shown (`st.warning`), the saved document displayed
back to the caller (`st.json(result)`), and the states of the two
stores. -/
structure SaveResult where
  errors : List String
  success : Bool
  warning : Bool
  shownDoc : Option StoredDoc
  store : Store
  sheet : List (List String)

/-- `_save_section(client_id, ui_values, StartTime, EndTime)` on the
submitted path (the `_form_submitted` session flag and its reset are UI
mechanics outside the model).  `nowUtc` stands for the current UTC
instant (`datetime.utcnow()`), `ist`/`utc` for the two formatted audit
timestamps, and `auditFails` for whether the Google-Sheets append raises
(the `except` branch). -/
def save_section (store : Store) (sheet : List (List String))
    (client_id : String) (ui : UiValues) (StartTime EndTime : Nat)
    (nowUtc : Nat) (ist utc : String) (auditFails : Bool) : SaveResult :=
  if client_id = "" then
    ⟨["client_id (DB name) enter kijiye."], false, false, none, store, sheet⟩
  else
    let errors := validateErrors ui StartTime EndTime
    if errors.isEmpty then
      let doc := buildDoc ui StartTime EndTime nowUtc
      match upsert_strategy store client_id doc nowUtc with
      | (none, store2) =>
        ⟨["Could not open the database for this client_id."], false, false,
         none, store2, sheet⟩
      | (some result, store2) =>
        if auditFails then ⟨[], true, true, some result, store2, sheet⟩
        else ⟨[], true, false, some result, store2,
          append_to_gsheet sheet client_id doc ist utc⟩
    else ⟨errors, false, false, none, store, sheet⟩

/-- The six violation messages in the order the rules are listed in
`_save_section`. -/
def allMessages : List String :=
  ["ShiftPoints must be a non-negative integer.",
   "HedgePoints must be a non-negative integer.",
   "OTMPoints must be a non-negative integer.",
   "ExpiryNo must be a non-negative integer.",
   "OrderLot must be an integer ≥ 1.",
   "StartTime must be ≤ EndTime"]

/-- The valid submission of the spec's round-trip scenario. -/
def uiSample : UiValues :=
  ⟨true, false, false, true, false, false, false,
   PyVal.int 50, PyVal.int 20, PyVal.int 10, "NIFTY", PyVal.int 0, PyVal.int 1⟩

/-- The same submission with `OrderLot = 0` (the spec's failing
scenario). -/
def uiBad : UiValues :=
  ⟨true, false, false, true, false, false, false,
   PyVal.int 50, PyVal.int 20, PyVal.int 10, "NIFTY", PyVal.int 0, PyVal.int 0⟩

/-! ### Properties of the time grid -/

lemma buildLoop_mem (max_t : Nat) :
    ∀ (fuel cur x : Nat), x ∈ buildLoop max_t fuel cur → cur ≤ x ∧ x ≤ max_t := by
  intro fuel
  induction fuel with
  | zero => intro cur x hx; simp [buildLoop] at hx
  | succ n ih =>
    intro cur x hx
    unfold buildLoop at hx
    split at hx
    · rcases List.mem_cons.mp hx with h | h
      · subst h; omega
      · have := ih (cur + 60) x h; omega
    · simp at hx

lemma buildLoop_chain (max_t : Nat) :
    ∀ (fuel cur : Nat), List.Chain' (fun a b => a < b) (buildLoop max_t fuel cur) := by
  intro fuel
  induction fuel with
  | zero => intro cur; simp [buildLoop]
  | succ n ih =>
    intro cur
    unfold buildLoop
    split
    · rw [List.chain'_cons']
      refine ⟨?_, ih (cur + 60)⟩
      intro y hy
      have : cur + 60 ≤ y ∧ y ≤ max_t :=
        buildLoop_mem max_t n (cur + 60) y (List.mem_of_mem_head? hy)
      omega
    · simp

set_option maxRecDepth 8000 in
lemma min_t_mem_allowedTimes : MIN_T ∈ allowedTimes := by decide

set_option maxRecDepth 8000 in
lemma max_t_mem_allowedTimes : MAX_T ∈ allowedTimes := by decide

set_option maxRecDepth 8000 in
lemma mem_allowedTimes_33360 : (33360 : Nat) ∈ allowedTimes := by decide

lemma allowedTimes_chain : List.Chain' (fun a b => a < b) allowedTimes :=
  buildLoop_chain MAX_T (MAX_T + 1) MIN_T

lemma allowedTimes_pairwise : List.Pairwise (fun a b => a < b) allowedTimes :=
  List.chain'_iff_pairwise.mp allowedTimes_chain

lemma allowedTimes_nodup : allowedTimes.Nodup :=
  allowedTimes_pairwise.imp (fun h => Nat.ne_of_lt h)

/-- C9: the time grid built from MIN_TIME 09:15:00 and MAX_TIME 15:30:00
with a 1-minute step contains both endpoints inclusively, every member
lies in [MIN_TIME, MAX_TIME], the sequence is strictly increasing
(adjacent members, hence — by transitivity — all pairs), and no member
appears twice. -/
theorem c9_time_grid_invariants :
    MIN_T ∈ allowedTimes ∧ MAX_T ∈ allowedTimes ∧
    (∀ x, x ∈ allowedTimes → MIN_T ≤ x ∧ x ≤ MAX_T) ∧
    List.Pairwise (fun a b => a < b) allowedTimes ∧
    allowedTimes.Nodup := by
  refine ⟨min_t_mem_allowedTimes, max_t_mem_allowedTimes, ?_,
    allowedTimes_pairwise, allowedTimes_nodup⟩
  intro x hx
  exact buildLoop_mem MAX_T (MAX_T + 1) MIN_T x hx

/-- Witness for C9 at the concrete member 09:16:00 (= 33360 s). -/
theorem c9_time_grid_invariants_witness : MIN_T ≤ 33360 ∧ 33360 ≤ MAX_T :=
  c9_time_grid_invariants.2.2.1 33360 mem_allowedTimes_33360

/-! ### Properties of the tolerant index lookup -/

lemma minBy_range'_spec (f : Nat → Nat) :
    ∀ (k a best : Nat), best < a →
      (minBy f best (List.range' a k) = best ∨
        (a ≤ minBy f best (List.range' a k) ∧ minBy f best (List.range' a k) < a + k)) ∧
      f (minBy f best (List.range' a k)) ≤ f best ∧
      (f (minBy f best (List.range' a k)) = f best → minBy f best (List.range' a k) = best) ∧
      (∀ j, a ≤ j → j < a + k →
        f (minBy f best (List.range' a k)) ≤ f j ∧
        (f (minBy f best (List.range' a k)) = f j → minBy f best (List.range' a k) ≤ j)) := by
  intro k
  induction k with
  | zero =>
    intro a best _
    refine ⟨Or.inl rfl, Nat.le_refl _, fun _ => rfl, ?_⟩
    intro j hj1 hj2
    omega
  | succ n ih =>
    intro a best hba
    rw [List.range'_succ]
    simp only [minBy]
    by_cases hfa : f a < f best
    · rw [if_pos hfa]
      obtain ⟨hpos, hle, htie, hall⟩ := ih (a + 1) a (by omega)
      refine ⟨?_, by omega, by omega, ?_⟩
      · rcases hpos with h | h
        · exact Or.inr (by omega)
        · exact Or.inr (by omega)
      · intro j hj1 hj2
        by_cases hja : j = a
        · subst hja
          exact ⟨hle, fun h => by rw [htie h]⟩
        · exact hall j (by omega) (by omega)
    · rw [if_neg hfa]
      obtain ⟨hpos, hle, htie, hall⟩ := ih (a + 1) best (by omega)
      refine ⟨?_, hle, htie, ?_⟩
      · rcases hpos with h | h
        · exact Or.inl h
        · exact Or.inr (by omega)
      · intro j hj1 hj2
        by_cases hja : j = a
        · subst hja
          refine ⟨by omega, fun h => ?_⟩
          have := htie (by omega)
          omega
        · exact hall j (by omega) (by omega)

set_option maxRecDepth 8000 in
lemma allowedTimes_length : allowedTimes.length = 376 := by decide

lemma indexOf_allowedTimes_getD (i : Nat) (h : i < allowedTimes.length) :
    List.indexOf (allowedTimes.getD i 0) allowedTimes = i := by
  have hget : allowedTimes.getD i 0 = allowedTimes[i] :=
    List.getD_eq_getElem allowedTimes 0 h
  have hmem : allowedTimes.getD i 0 ∈ allowedTimes := by
    rw [hget]; exact List.getElem_mem h
  have hlt : List.indexOf (allowedTimes.getD i 0) allowedTimes < allowedTimes.length :=
    List.indexOf_lt_length.mpr hmem
  have heq : allowedTimes[List.indexOf (allowedTimes.getD i 0) allowedTimes] =
      allowedTimes.getD i 0 := List.getElem_indexOf hlt
  have heq2 : allowedTimes.get ⟨List.indexOf (allowedTimes.getD i 0) allowedTimes, hlt⟩
      = allowedTimes.get ⟨i, h⟩ := by
    rw [List.get_eq_getElem, List.get_eq_getElem, heq, hget]
  have hfin := allowedTimes_nodup.get_inj_iff.mp heq2
  exact congrArg Fin.val hfin

set_option maxRecDepth 8000 in
/-- C5: for every time t in the grid, `_time_to_index` returns the exact
index of t; for every t not in the grid it returns an in-range index
whose grid member is at minimum absolute time-of-day distance from t,
and any equidistant grid member sits at the returned index or later
(ties go to the earlier member). -/
theorem c5_time_to_index_spec (t : Nat) :
    (∀ i, i < allowedTimes.length → allowedTimes.getD i 0 = t → time_to_index t = i) ∧
    (t ∉ allowedTimes →
      time_to_index t < allowedTimes.length ∧
      ∀ j, j < allowedTimes.length →
        secondsBetween (allowedTimes.getD (time_to_index t) 0) t ≤
          secondsBetween (allowedTimes.getD j 0) t ∧
        (secondsBetween (allowedTimes.getD j 0) t =
            secondsBetween (allowedTimes.getD (time_to_index t) 0) t →
          time_to_index t ≤ j)) := by
  constructor
  · intro i hi hit
    have hmem : t ∈ allowedTimes := by
      rw [← hit]
      rw [List.getD_eq_getElem allowedTimes 0 hi]
      exact List.getElem_mem hi
    rw [time_to_index, if_pos hmem, ← hit]
    exact indexOf_allowedTimes_getD i hi
  · intro hmem
    have hrw : time_to_index t =
        minBy (fun i => secondsBetween (allowedTimes.getD i 0) t) 0
          (List.range' 1 375) := by
      rw [time_to_index, if_neg hmem, allowedTimes_length]
      rw [List.range_eq_range']
      rw [show (376 : Nat) = 375 + 1 from rfl, List.range'_succ]
      simp only [pymin, Option.getD_some]
    obtain ⟨hpos, hle0, htie0, hall⟩ :=
      minBy_range'_spec (fun i => secondsBetween (allowedTimes.getD i 0) t)
        375 1 0 (by omega)
    rw [hrw, allowedTimes_length]
    refine ⟨by omega, ?_⟩
    intro j hj
    by_cases hj0 : j = 0
    · subst hj0
      exact ⟨hle0, fun h => by rw [htie0 (by omega)]⟩
    · have := hall j (by omega) (by omega)
      exact ⟨this.1, fun h => this.2 (by omega)⟩

set_option maxRecDepth 8000 in
lemma allowedTimes_getD_1 : allowedTimes.getD 1 0 = 33360 := by decide

set_option maxRecDepth 8000 in
lemma not_mem_allowedTimes_33330 : (33330 : Nat) ∉ allowedTimes := by decide

/-- Witness for C5: the grid member 09:16:00 (index 1) maps to index 1,
and for the off-grid time 09:15:30 the chosen grid member is at minimal
distance from it, with the equidistant member at index 1 resolved toward
the earlier index. -/
theorem c5_time_to_index_spec_witness :
    time_to_index 33360 = 1 ∧
    (secondsBetween (allowedTimes.getD (time_to_index 33330) 0) 33330 ≤
        secondsBetween (allowedTimes.getD 1 0) 33330 ∧
      (secondsBetween (allowedTimes.getD 1 0) 33330 =
          secondsBetween (allowedTimes.getD (time_to_index 33330) 0) 33330 →
        time_to_index 33330 ≤ 1)) :=
  ⟨(c5_time_to_index_spec 33360).1 1 (by rw [allowedTimes_length]; omega)
      allowedTimes_getD_1,
    ((c5_time_to_index_spec 33330).2 not_mem_allowedTimes_33330).2 1
      (by rw [allowedTimes_length]; omega)⟩

/-! ### Properties of the prefill time coercion -/

lemma clampT_mem (t : Nat) : MIN_T ≤ clampT t ∧ clampT t ≤ MAX_T := by
  simp only [clampT, MIN_T, MAX_T, timeSecs]
  split_ifs <;> omega

lemma clamp_steps_eq_clampT (t : Nat) :
    (if MAX_T < (if t < MIN_T then MIN_T else t) then MAX_T
      else (if t < MIN_T then MIN_T else t)) = clampT t := by
  simp only [clampT, MIN_T, MAX_T, timeSecs]
  split_ifs <;> omega

/-- C6: the time-prefill coercion is total and always lands in
[MIN_T, MAX_T]; a missing stored value (document absent or falsy, key
absent, or value not a string) or an unparseable stored string yields
the clamped default. -/
theorem c6_clamp_and_parse_time_spec
    (existing : Option (List (String × FieldVal))) (key : String) (fallback : Nat) :
    MIN_T ≤ clamp_and_parse_time existing key fallback ∧
    clamp_and_parse_time existing key fallback ≤ MAX_T ∧
    (getStoredStr existing key = none →
      clamp_and_parse_time existing key fallback = clampT fallback) ∧
    (∀ s, getStoredStr existing key = some s →
      parse_time_opt (splitOnColon s.data) = none →
      clamp_and_parse_time existing key fallback = clampT fallback) := by
  have hres : ∀ v, getStoredStr existing key = v →
      clamp_and_parse_time existing key fallback =
        clampT (match v with
          | some s => parse_time_hms s fallback
          | none => fallback) := by
    intro v hv
    simp only [clamp_and_parse_time, hv]
    exact clamp_steps_eq_clampT _
  refine ⟨?_, ?_, ?_, ?_⟩
  · rw [hres _ rfl]; exact (clampT_mem _).1
  · rw [hres _ rfl]; exact (clampT_mem _).2
  · intro h; rw [hres _ h]
  · intro s hs hparse
    rw [hres _ hs]
    simp only [parse_time_hms, hparse, Option.getD_none]

/-- Witness for C6: an absent document yields the clamped default, and
the result sits in the window. -/
theorem c6_clamp_and_parse_time_spec_witness :
    MIN_T ≤ clamp_and_parse_time none "StartTime" 33300 ∧
    clamp_and_parse_time none "StartTime" 33300 = clampT 33300 :=
  ⟨(c6_clamp_and_parse_time_spec none "StartTime" 33300).1,
    (c6_clamp_and_parse_time_spec none "StartTime" 33300).2.2.1 rfl⟩

/-! ### Leniency of the stored-time parser -/

/-- C10: the stored-time parser accepts `"H:M"` (seconds default to 0),
and with more than three colon-separated components it ignores
everything after the third. -/
theorem c10_parser_leniency :
    (∀ h : Nat, h < 24 → ∀ m : Nat, m < 60 →
      parse_time_hms (Nat.repr h ++ ":" ++ Nat.repr m) 99999 = h * 3600 + m * 60) ∧
    (∀ (s : String) (d : Nat), 3 < (splitOnColon s.data).length →
      parse_time_hms s d = (parse_time_opt ((splitOnColon s.data).take 3)).getD d) := by
  constructor
  · decide
  · intro s d hlen
    rw [parse_time_hms]
    generalize hsp : splitOnColon s.data = parts at hlen ⊢
    rcases parts with _ | ⟨a, _ | ⟨b, _ | ⟨c, rest⟩⟩⟩
    · simp at hlen
    · simp at hlen
    · simp at hlen
    · simp [parse_time_opt]

set_option maxRecDepth 8000 in
/-- Witness for C10: `"9:5"` parses as 09:05:00, and the fourth
component of `"09:15:30:99"` is ignored. -/
theorem c10_parser_leniency_witness :
    parse_time_hms "9:5" 99999 = 9 * 3600 + 5 * 60 ∧
    parse_time_hms "09:15:30:99" 0 =
      (parse_time_opt ((splitOnColon ("09:15:30:99").data).take 3)).getD 0 := by
  constructor
  · have hstr : Nat.repr 9 ++ ":" ++ Nat.repr 5 = "9:5" := by decide
    rw [← hstr]
    exact c10_parser_leniency.1 9 (by omega) 5 (by omega)
  · exact c10_parser_leniency.2 "09:15:30:99" 0 (by decide)

/-! ### Properties of the validator -/

lemma badNonNeg_eq_true_iff (v : PyVal) :
    badNonNeg v = true ↔ (v = PyVal.other ∨ ∃ n, v = PyVal.int n ∧ n < 0) := by
  cases v <;> simp [badNonNeg]

lemma badLot_eq_true_iff (v : PyVal) :
    badLot v = true ↔ (v = PyVal.other ∨ ∃ n, v = PyVal.int n ∧ n < 1) := by
  cases v <;> simp [badLot]

lemma mem_ite_block (x m : String) (c : Bool) (l : List String) :
    (x ∈ (if c then [m] else []) ++ l) ↔ ((c = true ∧ x = m) ∨ x ∈ l) := by
  cases c <;> simp

lemma mem_ite_single (x m : String) (c : Bool) :
    (x ∈ (if c then [m] else [])) ↔ (c = true ∧ x = m) := by
  cases c <;> simp

lemma sublist_ite_block (p : Prop) [Decidable p] (m : String) :
    List.Sublist (if p then [m] else []) [m] := by
  split_ifs <;> simp

/-- C1: each rule violation (negative or non-integer quantity,
OrderLot below 1, StartTime after EndTime — equality accepted) puts its
named message in the violation list, independently of the others; the
list is ordered as the rules are listed; and a non-empty list aborts the
save with the violations surfaced verbatim and no document returned. -/
theorem c1_validator_spec (ui : UiValues) (st et : Nat) :
    ("ShiftPoints must be a non-negative integer." ∈ validateErrors ui st et ↔
      (ui.ShiftPoints = PyVal.other ∨ ∃ n, ui.ShiftPoints = PyVal.int n ∧ n < 0)) ∧
    ("HedgePoints must be a non-negative integer." ∈ validateErrors ui st et ↔
      (ui.HedgePoints = PyVal.other ∨ ∃ n, ui.HedgePoints = PyVal.int n ∧ n < 0)) ∧
    ("OTMPoints must be a non-negative integer." ∈ validateErrors ui st et ↔
      (ui.OTMPoints = PyVal.other ∨ ∃ n, ui.OTMPoints = PyVal.int n ∧ n < 0)) ∧
    ("ExpiryNo must be a non-negative integer." ∈ validateErrors ui st et ↔
      (ui.ExpiryNo = PyVal.other ∨ ∃ n, ui.ExpiryNo = PyVal.int n ∧ n < 0)) ∧
    ("OrderLot must be an integer ≥ 1." ∈ validateErrors ui st et ↔
      (ui.OrderLot = PyVal.other ∨ ∃ n, ui.OrderLot = PyVal.int n ∧ n < 1)) ∧
    ("StartTime must be ≤ EndTime" ∈ validateErrors ui st et ↔ et < st) ∧
    List.Sublist (validateErrors ui st et) allMessages ∧
    (validateErrors ui st et ≠ [] →
      ∀ (cid : String) (store : Store) (sheet : List (List String))
        (now : Nat) (ist utc : String) (af : Bool), cid ≠ "" →
        (save_section store sheet cid ui st et now ist utc af).success = false ∧
        (save_section store sheet cid ui st et now ist utc af).shownDoc = none ∧
        (save_section store sheet cid ui st et now ist utc af).errors =
          validateErrors ui st et) := by
  refine ⟨?_, ?_, ?_, ?_, ?_, ?_, ?_, ?_⟩
  · simp only [validateErrors, mem_ite_block, mem_ite_single]
    simp [decide_eq_true_iff]
    exact badNonNeg_eq_true_iff _
  · simp only [validateErrors, mem_ite_block, mem_ite_single]
    simp [decide_eq_true_iff]
    exact badNonNeg_eq_true_iff _
  · simp only [validateErrors, mem_ite_block, mem_ite_single]
    simp [decide_eq_true_iff]
    exact badNonNeg_eq_true_iff _
  · simp only [validateErrors, mem_ite_block, mem_ite_single]
    simp [decide_eq_true_iff]
    exact badNonNeg_eq_true_iff _
  · simp only [validateErrors, mem_ite_block, mem_ite_single]
    simp [decide_eq_true_iff]
    exact badLot_eq_true_iff _
  · simp only [validateErrors, mem_ite_block, mem_ite_single]
    simp [decide_eq_true_iff]
  · unfold validateErrors allMessages
    show List.Sublist _ ((((([_] ++ [_]) ++ [_]) ++ [_]) ++ [_]) ++ [_])
    exact ((((((sublist_ite_block _ _).append (sublist_ite_block _ _)).append
      (sublist_ite_block _ _)).append (sublist_ite_block _ _)).append
      (sublist_ite_block _ _)).append (sublist_ite_block _ _))
  · intro hne cid store sheet now ist utc af hcid
    have hemp : (validateErrors ui st et).isEmpty = false :=
      List.isEmpty_eq_false.mpr hne
    simp [save_section, if_neg hcid, hemp]

/-- Witness for C1: the spec scenario with OrderLot 0 — validation
fails, no document is returned, and the violations are surfaced. -/
theorem c1_validator_spec_witness :
    (save_section emptyStore [] "CL001" uiBad 33300 54900 5 "i" "u" false).success
        = false ∧
    (save_section emptyStore [] "CL001" uiBad 33300 54900 5 "i" "u" false).shownDoc
        = none :=
  ⟨((c1_validator_spec uiBad 33300 54900).2.2.2.2.2.2.2 (by decide) "CL001"
      emptyStore [] 5 "i" "u" false (by decide)).1,
    ((c1_validator_spec uiBad 33300 54900).2.2.2.2.2.2.2 (by decide) "CL001"
      emptyStore [] 5 "i" "u" false (by decide)).2.1⟩

/-! ### Properties of the save flow -/

/-- C4: a submission with at least one violation performs no
record-store write and no audit append — both stores come back
unchanged and no success is reported. -/
theorem c4_no_write_on_validation_failure
    (store : Store) (sheet : List (List String)) (cid : String) (ui : UiValues)
    (st et now : Nat) (ist utc : String) (af : Bool)
    (hcid : cid ≠ "") (hne : validateErrors ui st et ≠ []) :
    (save_section store sheet cid ui st et now ist utc af).store = store ∧
    (save_section store sheet cid ui st et now ist utc af).sheet = sheet ∧
    (save_section store sheet cid ui st et now ist utc af).success = false := by
  have hemp : (validateErrors ui st et).isEmpty = false :=
    List.isEmpty_eq_false.mpr hne
  simp [save_section, hcid, hemp]

/-- Witness for C4: the OrderLot-0 scenario leaves the store and the
audit sheet untouched. -/
theorem c4_no_write_on_validation_failure_witness :
    (save_section emptyStore [["h"]] "CL001" uiBad 33300 54900 7 "i" "u" false).store
        = emptyStore ∧
    (save_section emptyStore [["h"]] "CL001" uiBad 33300 54900 7 "i" "u" false).sheet
        = [["h"]] ∧
    (save_section emptyStore [["h"]] "CL001" uiBad 33300 54900 7 "i" "u" false).success
        = false :=
  c4_no_write_on_validation_failure emptyStore [["h"]] "CL001" uiBad
    33300 54900 7 "i" "u" false (by decide) (by decide)

/-- C3: when the audit append raises after a successful record-store
write, the save is still reported successful, the failure surfaces only
as a warning, the written document stays in the store, it is returned to
the caller, and the audit sheet is unchanged. -/
theorem c3_audit_failure_nonfatal
    (store : Store) (sheet : List (List String)) (cid : String) (ui : UiValues)
    (st et now : Nat) (ist utc : String)
    (hcid : cid ≠ "") (hval : validateErrors ui st et = []) :
    ∃ d : StoredDoc,
      (save_section store sheet cid ui st et now ist utc true).success = true ∧
      (save_section store sheet cid ui st et now ist utc true).warning = true ∧
      (save_section store sheet cid ui st et now ist utc true).shownDoc = some d ∧
      (save_section store sheet cid ui st et now ist utc true).store cid = some d ∧
      d.fields = buildDoc ui st et now ∧
      (save_section store sheet cid ui st et now ist utc true).sheet = sheet := by
  cases hs : store cid with
  | none =>
    refine ⟨⟨buildDoc ui st et now, some now⟩, ?_⟩
    simp [save_section, hcid, hval, upsert_strategy, hs, storeSet]
  | some old =>
    refine ⟨⟨buildDoc ui st et now, old.created_at⟩, ?_⟩
    simp [save_section, hcid, hval, upsert_strategy, hs, storeSet]

/-- Witness for C3: the spec's valid scenario with a failing audit
append still reports success with a warning. -/
theorem c3_audit_failure_nonfatal_witness :
    ∃ d : StoredDoc,
      (save_section emptyStore [] "CL001" uiSample 33300 54900 9 "i" "u" true).success
          = true ∧
      (save_section emptyStore [] "CL001" uiSample 33300 54900 9 "i" "u" true).warning
          = true ∧
      (save_section emptyStore [] "CL001" uiSample 33300 54900 9 "i" "u" true).shownDoc
          = some d ∧
      (save_section emptyStore [] "CL001" uiSample 33300 54900 9 "i" "u" true).store "CL001"
          = some d ∧
      d.fields = buildDoc uiSample 33300 54900 9 ∧
      (save_section emptyStore [] "CL001" uiSample 33300 54900 9 "i" "u" true).sheet
          = [] :=
  c3_audit_failure_nonfatal emptyStore [] "CL001" uiSample 33300 54900 9 "i" "u"
    (by decide) (by decide)

/-- C2: a first successful save for a fresh client stores a document
with `updated_at` and `created_at` both the save's UTC instant; a second
successful save overwrites the settable fields and `updated_at` with the
new submission's values while leaving the first save's `created_at`
unchanged. -/
theorem c2_created_updated_timestamps
    (store : Store) (sheet1 sheet2 : List (List String)) (cid : String)
    (ui1 ui2 : UiValues) (st1 et1 st2 et2 t1 t2 : Nat)
    (ist1 utc1 ist2 utc2 : String) (af1 af2 : Bool)
    (hcid : cid ≠ "") (hnew : store cid = none)
    (hv1 : validateErrors ui1 st1 et1 = [])
    (hv2 : validateErrors ui2 st2 et2 = []) :
    ∃ d1 d2 : StoredDoc,
      (save_section store sheet1 cid ui1 st1 et1 t1 ist1 utc1 af1).shownDoc = some d1 ∧
      (save_section store sheet1 cid ui1 st1 et1 t1 ist1 utc1 af1).store cid = some d1 ∧
      d1.fields = buildDoc ui1 st1 et1 t1 ∧
      d1.fields.updated_at = t1 ∧
      d1.created_at = some t1 ∧
      (save_section (save_section store sheet1 cid ui1 st1 et1 t1 ist1 utc1 af1).store
          sheet2 cid ui2 st2 et2 t2 ist2 utc2 af2).shownDoc = some d2 ∧
      (save_section (save_section store sheet1 cid ui1 st1 et1 t1 ist1 utc1 af1).store
          sheet2 cid ui2 st2 et2 t2 ist2 utc2 af2).store cid = some d2 ∧
      d2.fields = buildDoc ui2 st2 et2 t2 ∧
      d2.fields.updated_at = t2 ∧
      d2.created_at = some t1 := by
  have h1 : (save_section store sheet1 cid ui1 st1 et1 t1 ist1 utc1 af1).store cid
      = some ⟨buildDoc ui1 st1 et1 t1, some t1⟩ := by
    cases af1 <;> simp [save_section, hcid, hv1, upsert_strategy, hnew, storeSet]
  have hshown1 : (save_section store sheet1 cid ui1 st1 et1 t1 ist1 utc1 af1).shownDoc
      = some ⟨buildDoc ui1 st1 et1 t1, some t1⟩ := by
    cases af1 <;> simp [save_section, hcid, hv1, upsert_strategy, hnew]
  have h2 : ∀ s1 : Store, s1 cid = some ⟨buildDoc ui1 st1 et1 t1, some t1⟩ →
      (save_section s1 sheet2 cid ui2 st2 et2 t2 ist2 utc2 af2).shownDoc
          = some ⟨buildDoc ui2 st2 et2 t2, some t1⟩ ∧
      (save_section s1 sheet2 cid ui2 st2 et2 t2 ist2 utc2 af2).store cid
          = some ⟨buildDoc ui2 st2 et2 t2, some t1⟩ := by
    intro s1 hs1
    cases af2 <;> simp [save_section, hcid, hv2, upsert_strategy, hs1, storeSet]
  exact ⟨⟨buildDoc ui1 st1 et1 t1, some t1⟩, ⟨buildDoc ui2 st2 et2 t2, some t1⟩,
    hshown1, h1, rfl, rfl, rfl, (h2 _ h1).1, (h2 _ h1).2, rfl, rfl, rfl⟩

/-- Witness for C2: two concrete saves for client CL001 starting from an
empty store. -/
theorem c2_created_updated_timestamps_witness :
    ∃ d1 d2 : StoredDoc,
      (save_section emptyStore [] "CL001" uiSample 33300 54900 1 "a" "b" false).shownDoc
          = some d1 ∧
      (save_section emptyStore [] "CL001" uiSample 33300 54900 1 "a" "b" false).store "CL001"
          = some d1 ∧
      d1.fields = buildDoc uiSample 33300 54900 1 ∧
      d1.fields.updated_at = 1 ∧
      d1.created_at = some 1 ∧
      (save_section (save_section emptyStore [] "CL001" uiSample 33300 54900 1 "a" "b" false).store
          [] "CL001" uiSample 33300 54900 2 "c" "d" false).shownDoc = some d2 ∧
      (save_section (save_section emptyStore [] "CL001" uiSample 33300 54900 1 "a" "b" false).store
          [] "CL001" uiSample 33300 54900 2 "c" "d" false).store "CL001" = some d2 ∧
      d2.fields = buildDoc uiSample 33300 54900 2 ∧
      d2.fields.updated_at = 2 ∧
      d2.created_at = some 1 :=
  c2_created_updated_timestamps emptyStore [] [] "CL001" uiSample uiSample
    33300 54900 33300 54900 1 2 "a" "b" "c" "d" false false
    (by decide) rfl (by decide) (by decide)

/-! ### Properties of the audit-log header -/

/-- Counterexample to C7 as stated: the header the code writes on an
empty sheet has no column named `SavedAt_local` — its first column is
`SavedAt_IST`. -/
theorem c7_header_counterexample :
    ensure_gsheet_header [] = [AUDIT_HEADER] ∧
    "SavedAt_local" ∉ AUDIT_HEADER ∧
    AUDIT_HEADER.head? = some "SavedAt_IST" := by
  refine ⟨rfl, ?_, rfl⟩
  decide

/-- C7 (amended): when the first cell is empty or unreadable the header
row — columns exactly `SavedAt_IST, SavedAt_UTC, ClientID, StrategyID,
Start, Pause, Stop, CallEntry, PutEntry, ShiftHedge, FirstEntry,
ShiftPoints, HedgePoints, OTMPoints, Symbol, ExpiryNo, OrderLot,
StartTime, EndTime`, in that order — is written exactly once before the
first data row; when the first cell is populated no header is
written. -/
theorem c7_header_amended :
    AUDIT_HEADER =
      ["SavedAt_IST", "SavedAt_UTC", "ClientID", "StrategyID",
       "Start", "Pause", "Stop", "CallEntry", "PutEntry", "ShiftHedge",
       "FirstEntry", "ShiftPoints", "HedgePoints", "OTMPoints",
       "Symbol", "ExpiryNo", "OrderLot", "StartTime", "EndTime"] ∧
    (∀ ws, a1Value ws = none →
      ensure_gsheet_header ws = ws ++ [AUDIT_HEADER]) ∧
    (∀ ws, a1Value ws = some "" →
      ensure_gsheet_header ws = ws ++ [AUDIT_HEADER]) ∧
    (∀ ws s, a1Value ws = some s → s ≠ "" → ensure_gsheet_header ws = ws) ∧
    (∀ (c c2 : String) (d d2 : DocFields) (i u i2 u2 : String),
      append_to_gsheet [] c d i u = [AUDIT_HEADER, auditRow c d i u] ∧
      append_to_gsheet (append_to_gsheet [] c d i u) c2 d2 i2 u2 =
        [AUDIT_HEADER, auditRow c d i u, auditRow c2 d2 i2 u2]) := by
  refine ⟨rfl, ?_, ?_, ?_, ?_⟩
  · intro ws h
    simp [ensure_gsheet_header, h]
  · intro ws h
    simp [ensure_gsheet_header, h]
  · intro ws s h hs
    simp [ensure_gsheet_header, h, hs]
  · intro c c2 d d2 i u i2 u2
    constructor
    · rfl
    · rfl

/-- Witness for C7 (amended): a sheet whose first cell is populated is
left unchanged. -/
theorem c7_header_amended_witness :
    ensure_gsheet_header [["X"]] = [["X"]] :=
  c7_header_amended.2.2.2.1 [["X"]] "X" rfl (by decide)

/-! ### Partition resolution for loads and upserts -/

/-- Counterexample to C8 as stated: loading with the unresolvable empty
client id returns `none` — exactly the value returned for a resolvable
client with no stored document — rather than a distinct store error. -/
theorem c8_load_counterexample :
    load_existing emptyStore "" = none ∧
    load_existing emptyStore "CL001" = none := by
  constructor
  · rfl
  · simp [load_existing, emptyStore]

/-- C8 (amended): for a client id that cannot be resolved to a store
partition (the empty string), upserting returns a distinct failure
(`none` result, no write) which the save flow surfaces as an error, but
loading returns plain `none`, indistinguishable from the absence of a
document for a resolvable client. -/
theorem c8_partition_resolution_amended :
    (∀ (store : Store) (d : DocFields) (now : Nat),
      upsert_strategy store "" d now = (none, store)) ∧
    (∀ store : Store, load_existing store "" = none) ∧
    (∀ (store : Store) (c : String), c ≠ "" → store c = none →
      load_existing store c = none) := by
  refine ⟨?_, ?_, ?_⟩
  · intro store d now
    simp [upsert_strategy]
  · intro store
    simp [load_existing]
  · intro store c hc hstore
    simp [load_existing, hc, hstore]

/-- Witness for C8 (amended): concrete unresolvable and absent-document
cases. -/
theorem c8_partition_resolution_amended_witness :
    upsert_strategy emptyStore "" (buildDoc uiSample 33300 54900 3) 3
        = (none, emptyStore) ∧
    load_existing emptyStore "CL002" = none :=
  ⟨c8_partition_resolution_amended.1 emptyStore (buildDoc uiSample 33300 54900 3) 3,
    c8_partition_resolution_amended.2.2 emptyStore "CL002" (by decide) rfl⟩

end StraddleShift
